import Mathlib

/-!
Verification of the two JSON-to-CSV export scripts of the `rps` repository
(`analysis/json_to_csv_v1.py` and `analysis/json_to_csv_v3.py`).

The scripts are shallowly embedded:
* a JSON document is a `JVal`; an object is an association list `Obj`
  (`lookup` is Python dict indexing, a missing key raising `KeyError`);
* the per-round row construction (`p1_vals` / `p2_vals`) is transcribed
  field by field, in source evaluation order, into `Except PyErr`;
* the per-file loop, the `write_index` header guard and the run loop are
  `processFile` / `runAux` / `run`; a raised error aborts the run, and the
  list of `WriteEvent`s is the sequence of `csvwriter.writerow` calls made
  before the abort (tagged by whether the call wrote the header row);
* the directory filter is `selectFile` / `files`;
* CSV serialization (`str()` conversion, quoting, `\r\n` terminator) is
  `pyStr` / `csvQuote` / `renderRow` / `renderEvents`, and opening the
  output file in `"w"` mode is `pyOpenW`.
-/

namespace RPS

/-- A JSON value as the scripts consume it: strings, integers, arrays and
objects.  Array elements that the scripts iterate over (the `rounds` list)
are round records, i.e. objects, so `jarr` carries objects directly. -/
inductive JVal where
  | jstr : String → JVal
  | jnum : Int → JVal
  | jarr : List (List (String × JVal)) → JVal
  | jobj : List (String × JVal) → JVal

/-- A parsed JSON object: an association list of key/value pairs. -/
abbrev Obj := List (String × JVal)

/-- Errors the Python scripts can raise while flattening:
`KeyError` from a missing dict key, `TypeError` from iterating a
non-list `rounds` value. -/
inductive PyErr where
  | keyError : String → PyErr
  | typeError : PyErr
deriving DecidableEq

/-- Python dict read `o[k]` that returns `none` when the key is absent
(used for membership tests `k in o`). -/
def lookup (o : Obj) (k : String) : Option JVal :=
  (o.find? (fun p => p.1 == k)).map (fun p => p.2)

/-- Python dict indexing `o[k]`: the value, or a raised `KeyError k`. -/
def getKey (o : Obj) (k : String) : Except PyErr JVal :=
  match lookup o k with
  | some v => Except.ok v
  | none => Except.error (PyErr.keyError k)

/-! ## Directory Scanner -/

/-- Prefix test on character lists: `isPrefAux pre l` holds when `pre` starts `l` (Boolean, by direct
recursion, mirroring how Python compares a sliding window). -/
def isPrefAux : List Char → List Char → Bool
  | [], _ => true
  | _ :: _, [] => false
  | a :: as, b :: bs => a == b && isPrefAux as bs

/-- Boolean substring test on character lists. -/
def containsAux (needle : List Char) : List Char → Bool
  | [] => needle.isEmpty
  | c :: t => isPrefAux needle (c :: t) || containsAux needle t

/-- The Python substring test `sub in s`. -/
def strIn (sub s : String) : Bool :=
  containsAux sub.data s.data

/-- The Python suffix test `s.endswith(suf)`: the reversed characters of `suf` are a
prefix of the reversed characters of `s`. -/
def strEndsWith (s suf : String) : Bool :=
  isPrefAux suf.data.reverse s.data.reverse

/-- The filter of the list comprehension building `files` in both scripts:
keep `f` iff it ends with `".json"` and contains none of `"TEST"`,
`"freeResp"`, `"sliderData"`. -/
def selectFile (f : String) : Bool :=
  strEndsWith f ".json" && !(strIn "TEST" f) && !(strIn "freeResp" f)
    && !(strIn "sliderData" f)

/-- The `files` list comprehension applied to a directory listing. -/
def files (listing : List String) : List String :=
  listing.filter selectFile

/-! ## Write events

Each `csvwriter.writerow` call is recorded as one event; `header` events
come from the `write_index == 0` block, `data` events from the round loop. -/

inductive WriteEvent where
  | header : List String → WriteEvent
  | data : List JVal → WriteEvent

/-- Is this event a data-row write? -/
def WriteEvent.isData : WriteEvent → Bool
  | .header _ => false
  | .data _ => true

/-- Is a value a JSON array? -/
def JVal.isArr : JVal → Bool
  | JVal.jarr _ => true
  | _ => false

/-- Number of header-row writes in an event list. -/
def countHeaders (evs : List WriteEvent) : Nat :=
  (evs.filter (fun e => !e.isData)).length

/-! ## v1 script (`json_to_csv_v1.py`) -/

/-- The v1 header array. -/
def header_v1 : List String :=
  ["game_id", "round_index", "player_id", "round_begin_ts",
   "player_move", "player_rt", "player_outcome", "player_outcome_viewtime",
   "player_points", "player_total"]

/-- Transcription of `p1_vals` in v1: the ten field reads, in source order. -/
def p1_vals_v1 (r : Obj) : Except PyErr (List JVal) := do
  let game_id ← getKey r "game_id"
  let round_index ← getKey r "round_index"
  let player1_id ← getKey r "player1_id"
  let round_begin_ts ← getKey r "round_begin_ts"
  let player1_move ← getKey r "player1_move"
  let player1_rt ← getKey r "player1_rt"
  let player1_outcome ← getKey r "player1_outcome"
  let player1_outcome_viewtime ← getKey r "player1_outcome_viewtime"
  let player1_points ← getKey r "player1_points"
  let player1_total ← getKey r "player1_total"
  return [game_id, round_index, player1_id, round_begin_ts,
    player1_move, player1_rt, player1_outcome, player1_outcome_viewtime,
    player1_points, player1_total]

/-- Transcription of `p2_vals` in v1. -/
def p2_vals_v1 (r : Obj) : Except PyErr (List JVal) := do
  let game_id ← getKey r "game_id"
  let round_index ← getKey r "round_index"
  let player2_id ← getKey r "player2_id"
  let round_begin_ts ← getKey r "round_begin_ts"
  let player2_move ← getKey r "player2_move"
  let player2_rt ← getKey r "player2_rt"
  let player2_outcome ← getKey r "player2_outcome"
  let player2_outcome_viewtime ← getKey r "player2_outcome_viewtime"
  let player2_points ← getKey r "player2_points"
  let player2_total ← getKey r "player2_total"
  return [game_id, round_index, player2_id, round_begin_ts,
    player2_move, player2_rt, player2_outcome, player2_outcome_viewtime,
    player2_points, player2_total]

/-- One iteration of the v1 round loop: build both rows (both value lists
are fully evaluated before either `writerow` call, so an error in either
suppresses both rows). -/
def flattenRound_v1 (r : Obj) : Except PyErr (List JVal × List JVal) := do
  let p1 ← p1_vals_v1 r
  let p2 ← p2_vals_v1 r
  return (p1, p2)

/-- The v1 round loop over `round_data`: emitted data rows, and the error
that aborted the loop, if any. -/
def processRounds_v1 : List Obj → List WriteEvent × Option PyErr
  | [] => ([], none)
  | r :: rest =>
    match flattenRound_v1 r with
    | Except.error e => ([], some e)
    | Except.ok (p1, p2) =>
      let (evs, err) := processRounds_v1 rest
      (WriteEvent.data p1 :: WriteEvent.data p2 :: evs, err)

/-- Processing of one v1 input file: the `rounds` lookup, then the header
guard, then the round loop.  Returns the events written, the updated
`write_index`, and the error that aborted the file, if any. -/
def processFile_v1 (writeIndex : Nat) (parsed : Obj) :
    List WriteEvent × Nat × Option PyErr :=
  match getKey parsed "rounds" with
  | Except.error e => ([], writeIndex, some e)
  | Except.ok round_data =>
    let headerEvs :=
      if writeIndex == 0 then [WriteEvent.header header_v1] else []
    let wi := if writeIndex == 0 then 1 else writeIndex
    match round_data with
    | JVal.jarr rounds =>
      let (evs, err) := processRounds_v1 rounds
      (headerEvs ++ evs, wi, err)
    | _ => (headerEvs, wi, some PyErr.typeError)

/-- The v1 file loop: processes files in order, aborting the whole run at
the first error (Python propagates the exception out of the loop). -/
def runAux_v1 (writeIndex : Nat) : List Obj → List WriteEvent × Option PyErr
  | [] => ([], none)
  | f :: rest =>
    match processFile_v1 writeIndex f with
    | (evs, wi, none) =>
      let (evs2, err2) := runAux_v1 wi rest
      (evs ++ evs2, err2)
    | (evs, _, some e) => (evs, some e)

/-- A whole v1 run over the (already parsed) selected files, starting with
`write_index = 0`. -/
def run_v1 (fs : List Obj) : List WriteEvent × Option PyErr :=
  runAux_v1 0 fs

/-! ## v3 script (`json_to_csv_v3.py`) -/

/-- The v3 header array. -/
def header_v3 : List String :=
  ["game_id", "version", "is_sona_autocredit", "sona_experiment_id",
   "sona_credit_token", "sona_survey_code",
   "round_index", "player_id", "is_bot", "bot_strategy", "bot_round_memory",
   "round_begin_ts", "player_move", "player_rt", "player_outcome",
   "player_outcome_viewtime", "player_points", "player_total"]

/-- The `memory_struct` local of the v3 round loop:
`r["player2_memory_struct"]` when the key is present, else `"NA"`. -/
def memory_struct_v3 (r : Obj) : JVal :=
  match lookup r "player2_memory_struct" with
  | some v => v
  | none => JVal.jstr "NA"

/-- The `player2_move` local of the v3 round loop:
`r["player2_move"]` when the key is present, else `"NA"`. -/
def player2_move_v3 (r : Obj) : JVal :=
  match lookup r "player2_move" with
  | some v => v
  | none => JVal.jstr "NA"

/-- Transcription of `p1_vals` in v3: the field reads in source order, with the literal
`0` for `is_bot` and the literal `"NA"` for `bot_round_memory`. -/
def p1_vals_v3 (parsed r : Obj) : Except PyErr (List JVal) := do
  let game_id ← getKey r "game_id"
  let version ← getKey parsed "version"
  let sona ← getKey parsed "sona"
  let experiment_id ← getKey parsed "experiment_id"
  let credit_token ← getKey parsed "credit_token"
  let survey_code ← getKey parsed "survey_code"
  let round_index ← getKey r "round_index"
  let player1_id ← getKey r "player1_id"
  let bot_strategy ← getKey parsed "player2_bot_strategy"
  let round_begin_ts ← getKey r "round_begin_ts"
  let player1_move ← getKey r "player1_move"
  let player1_rt ← getKey r "player1_rt"
  let player1_outcome ← getKey r "player1_outcome"
  let player1_outcome_viewtime ← getKey r "player1_outcome_viewtime"
  let player1_points ← getKey r "player1_points"
  let player1_total ← getKey r "player1_total"
  return [game_id, version, sona, experiment_id, credit_token, survey_code,
    round_index, player1_id, JVal.jnum 0, bot_strategy, JVal.jstr "NA",
    round_begin_ts, player1_move, player1_rt, player1_outcome,
    player1_outcome_viewtime, player1_points, player1_total]

/-- Transcription of `p2_vals` in v3: the field reads in source order, with the literal
`1` for `is_bot`, `parsed["player2_botid"]` for `player_id`, and the
precomputed `memory_struct` / `player2_move` locals. -/
def p2_vals_v3 (parsed r : Obj) (memory_struct player2_move : JVal) :
    Except PyErr (List JVal) := do
  let game_id ← getKey r "game_id"
  let version ← getKey parsed "version"
  let sona ← getKey parsed "sona"
  let experiment_id ← getKey parsed "experiment_id"
  let credit_token ← getKey parsed "credit_token"
  let survey_code ← getKey parsed "survey_code"
  let round_index ← getKey r "round_index"
  let player2_botid ← getKey parsed "player2_botid"
  let bot_strategy ← getKey parsed "player2_bot_strategy"
  let round_begin_ts ← getKey r "round_begin_ts"
  let player2_rt ← getKey r "player2_rt"
  let player2_outcome ← getKey r "player2_outcome"
  let player2_outcome_viewtime ← getKey r "player2_outcome_viewtime"
  let player2_points ← getKey r "player2_points"
  let player2_total ← getKey r "player2_total"
  return [game_id, version, sona, experiment_id, credit_token, survey_code,
    round_index, player2_botid, JVal.jnum 1, bot_strategy, memory_struct,
    round_begin_ts, player2_move, player2_rt, player2_outcome,
    player2_outcome_viewtime, player2_points, player2_total]

/-- One iteration of the v3 round loop: the two `in`-tests and defaults,
then both value lists (fully evaluated before either `writerow`). -/
def flattenRound_v3 (parsed r : Obj) :
    Except PyErr (List JVal × List JVal) := do
  let memory_struct := memory_struct_v3 r
  let player2_move := player2_move_v3 r
  let p1 ← p1_vals_v3 parsed r
  let p2 ← p2_vals_v3 parsed r memory_struct player2_move
  return (p1, p2)

/-- The v3 round loop over `round_data`. -/
def processRounds_v3 (parsed : Obj) :
    List Obj → List WriteEvent × Option PyErr
  | [] => ([], none)
  | r :: rest =>
    match flattenRound_v3 parsed r with
    | Except.error e => ([], some e)
    | Except.ok (p1, p2) =>
      let (evs, err) := processRounds_v3 parsed rest
      (WriteEvent.data p1 :: WriteEvent.data p2 :: evs, err)

/-- Processing of one v3 input file. -/
def processFile_v3 (writeIndex : Nat) (parsed : Obj) :
    List WriteEvent × Nat × Option PyErr :=
  match getKey parsed "rounds" with
  | Except.error e => ([], writeIndex, some e)
  | Except.ok round_data =>
    let headerEvs :=
      if writeIndex == 0 then [WriteEvent.header header_v3] else []
    let wi := if writeIndex == 0 then 1 else writeIndex
    match round_data with
    | JVal.jarr rounds =>
      let (evs, err) := processRounds_v3 parsed rounds
      (headerEvs ++ evs, wi, err)
    | _ => (headerEvs, wi, some PyErr.typeError)

/-- The v3 file loop. -/
def runAux_v3 (writeIndex : Nat) : List Obj → List WriteEvent × Option PyErr
  | [] => ([], none)
  | f :: rest =>
    match processFile_v3 writeIndex f with
    | (evs, wi, none) =>
      let (evs2, err2) := runAux_v3 wi rest
      (evs ++ evs2, err2)
    | (evs, _, some e) => (evs, some e)

/-- A whole v3 run over the (already parsed) selected files. -/
def run_v3 (fs : List Obj) : List WriteEvent × Option PyErr :=
  runAux_v3 0 fs

/-! ## CSV serialization -/

/-- A single-quote character, as the Python `repr` puts around strings. -/
def squote : String := String.singleton (Char.ofNat 39)

mutual

/-- Python `str()` of a value as `csv.writer` stringifies each cell:
strings pass through unchanged, integers print in decimal, containers
print in Python literal form. -/
def pyStr : JVal → String
  | JVal.jstr s => s
  | JVal.jnum n => toString n
  | JVal.jarr rs => "[" ++ String.intercalate ", " (pyReprObjs rs) ++ "]"
  | JVal.jobj o => pyReprObj o

/-- Python `repr` of a value, used for container elements. -/
def pyRepr : JVal → String
  | JVal.jstr s => squote ++ s ++ squote
  | JVal.jnum n => toString n
  | JVal.jarr rs => "[" ++ String.intercalate ", " (pyReprObjs rs) ++ "]"
  | JVal.jobj o => pyReprObj o

/-- Python `repr` of a dict. -/
def pyReprObj : Obj → String
  | o => "\x7b" ++ String.intercalate ", " (pyReprPairs o) ++ "\x7d"

/-- Representations of the key/value pairs of a dict. -/
def pyReprPairs : List (String × JVal) → List String
  | [] => []
  | (k, v) :: t => (squote ++ k ++ squote ++ ": " ++ pyRepr v) :: pyReprPairs t

/-- Representations of the elements of a list of dicts. -/
def pyReprObjs : List Obj → List String
  | [] => []
  | o :: t => pyReprObj o :: pyReprObjs t

end

/-- Does `csv.writer` (default dialect, `QUOTE_MINIMAL`) need to quote
this cell?  Yes iff it contains the delimiter, the quote character, or a
character of the line terminator `"\r\n"`. -/
def needsQuote (s : String) : Bool :=
  s.data.any (fun c => c == ',' || c == '\"' || c == '\r' || c == '\n')

/-- Quote a cell when needed, doubling embedded quote characters. -/
def csvQuote (s : String) : String :=
  if needsQuote s then
    "\"" ++ String.join (s.data.map (fun c =>
      if c == '\"' then "\"\"" else String.singleton c)) ++ "\""
  else s

/-- One CSV record: cells joined by commas, terminated by `"\r\n"`. -/
def renderRow (cells : List String) : String :=
  String.intercalate "," (cells.map csvQuote) ++ "\r\n"

/-- The bytes a `writerow` call appends to the output file. -/
def renderEvent : WriteEvent → String
  | WriteEvent.header hs => renderRow hs
  | WriteEvent.data vs => renderRow (vs.map pyStr)

/-- The bytes a sequence of `writerow` calls produces. -/
def renderEvents (evs : List WriteEvent) : String :=
  String.join (evs.map renderEvent)

/-- Opening the output file in `"w"` mode: whatever the file held before
is truncated away. -/
def pyOpenW (_prevContent : String) : String := ""

/-- A full v1 script execution: `readFile` gives the parsed JSON document
of each name in the directory listing, `prevOutput` is the previous
content of the output file (destroyed by the `"w"` open).  The result is
the final content of `rps_v1_data.csv`. -/
def script_v1 (listing : List String) (readFile : String → Obj)
    (prevOutput : String) : String :=
  pyOpenW prevOutput ++ renderEvents (run_v1 ((files listing).map readFile)).1

/-- A full v3 script execution (final content of `rps_v3_data.csv`). -/
def script_v3 (listing : List String) (readFile : String → Obj)
    (prevOutput : String) : String :=
  pyOpenW prevOutput ++ renderEvents (run_v3 ((files listing).map readFile)).1

/-! ## Concrete fixtures (used by witness theorems) -/

/-- The one-round v1 session of Scenario A in the spec (`g1.json`). -/
def g1round : Obj :=
  [("game_id", JVal.jstr "g1"), ("round_index", JVal.jnum 0),
   ("player1_id", JVal.jstr "p1"), ("player2_id", JVal.jstr "p2"),
   ("round_begin_ts", JVal.jnum 100),
   ("player1_move", JVal.jstr "rock"), ("player2_move", JVal.jstr "scissors"),
   ("player1_rt", JVal.jnum 500), ("player2_rt", JVal.jnum 600),
   ("player1_outcome", JVal.jstr "win"), ("player2_outcome", JVal.jstr "lose"),
   ("player1_outcome_viewtime", JVal.jnum 200),
   ("player2_outcome_viewtime", JVal.jnum 200),
   ("player1_points", JVal.jnum 1), ("player2_points", JVal.jnum 0),
   ("player1_total", JVal.jnum 1), ("player2_total", JVal.jnum 0)]

/-- The Scenario A session record. -/
def g1session : Obj := [("rounds", JVal.jarr [g1round])]

/-- A v3 round record that lacks both optional keys
(`player2_move`, `player2_memory_struct`) but has every required field. -/
def roundV3noOpt : Obj :=
  [("game_id", JVal.jstr "g2"), ("round_index", JVal.jnum 3),
   ("player1_id", JVal.jstr "h1"),
   ("round_begin_ts", JVal.jnum 900),
   ("player1_move", JVal.jstr "paper"),
   ("player1_rt", JVal.jnum 450), ("player2_rt", JVal.jnum 0),
   ("player1_outcome", JVal.jstr "tie"), ("player2_outcome", JVal.jstr "tie"),
   ("player1_outcome_viewtime", JVal.jnum 300),
   ("player2_outcome_viewtime", JVal.jnum 300),
   ("player1_points", JVal.jnum 0), ("player2_points", JVal.jnum 0),
   ("player1_total", JVal.jnum 2), ("player2_total", JVal.jnum 4)]

/-- A v3 round record with both optional keys present. -/
def roundV3full : Obj :=
  ("player2_move", JVal.jstr "rock")
    :: ("player2_memory_struct", JVal.jobj [("rock", JVal.jnum 2)])
    :: roundV3noOpt

/-- A v3 session record with all required session-level keys, the
Scenario B strategy `player2_bot_strategy = "nash"`, and one round
lacking `player2_move`. -/
def sessionV3 : Obj :=
  [("version", JVal.jstr "3.0"), ("sona", JVal.jnum 1),
   ("experiment_id", JVal.jnum 1185), ("credit_token", JVal.jstr "tok"),
   ("survey_code", JVal.jnum 77),
   ("player2_bot_strategy", JVal.jstr "nash"),
   ("player2_botid", JVal.jstr "bot_17"),
   ("rounds", JVal.jarr [roundV3noOpt])]

/-- A v3 session record identical to `sessionV3` but lacking the
`player2_botid` key. -/
def sessionNoBot : Obj :=
  [("version", JVal.jstr "3.0"), ("sona", JVal.jnum 1),
   ("experiment_id", JVal.jnum 1185), ("credit_token", JVal.jstr "tok"),
   ("survey_code", JVal.jnum 77),
   ("player2_bot_strategy", JVal.jstr "nash"),
   ("rounds", JVal.jarr [roundV3noOpt])]

/-- The Scenario A round extended with a `player2_memory_struct` value. -/
def g1full : Obj :=
  ("player2_memory_struct", JVal.jobj [("rock", JVal.jnum 1)]) :: g1round

/-- The v3 player-1 row produced from `sessionV3` and `roundV3noOpt`
(also from `roundV3full`, whose optional keys the player-1 row ignores). -/
def p1RowNoOpt : List JVal :=
  [JVal.jstr "g2", JVal.jstr "3.0", JVal.jnum 1, JVal.jnum 1185,
   JVal.jstr "tok", JVal.jnum 77, JVal.jnum 3, JVal.jstr "h1", JVal.jnum 0,
   JVal.jstr "nash", JVal.jstr "NA", JVal.jnum 900, JVal.jstr "paper",
   JVal.jnum 450, JVal.jstr "tie", JVal.jnum 300, JVal.jnum 0, JVal.jnum 2]

/-- The v3 player-2 row produced from `sessionV3` and `roundV3noOpt`:
both optional columns fall back to `"NA"`. -/
def p2RowNoOpt : List JVal :=
  [JVal.jstr "g2", JVal.jstr "3.0", JVal.jnum 1, JVal.jnum 1185,
   JVal.jstr "tok", JVal.jnum 77, JVal.jnum 3, JVal.jstr "bot_17",
   JVal.jnum 1, JVal.jstr "nash", JVal.jstr "NA", JVal.jnum 900,
   JVal.jstr "NA", JVal.jnum 0, JVal.jstr "tie", JVal.jnum 300,
   JVal.jnum 0, JVal.jnum 4]

/-- The v3 player-2 row produced from `sessionV3` and `roundV3full`:
both optional columns carry the values of the record. -/
def p2RowFull : List JVal :=
  [JVal.jstr "g2", JVal.jstr "3.0", JVal.jnum 1, JVal.jnum 1185,
   JVal.jstr "tok", JVal.jnum 77, JVal.jnum 3, JVal.jstr "bot_17",
   JVal.jnum 1, JVal.jstr "nash", JVal.jobj [("rock", JVal.jnum 2)],
   JVal.jnum 900, JVal.jstr "rock", JVal.jnum 0, JVal.jstr "tie",
   JVal.jnum 300, JVal.jnum 0, JVal.jnum 4]

/-! ## Helper lemmas -/

/-- Decompose a successful `Except` bind. -/
theorem except_bind_ok {ε α β : Type} {x : Except ε α} {f : α → Except ε β}
    {b : β} : x >>= f = Except.ok b ↔ ∃ a, x = Except.ok a ∧ f a = Except.ok b := by
  cases x <;> simp [Bind.bind, Except.bind]

/-- A successful `getKey` is exactly a present key. -/
theorem getKey_eq_ok {o : Obj} {k : String} {v : JVal} :
    getKey o k = Except.ok v ↔ lookup o k = some v := by
  unfold getKey
  cases h : lookup o k <;> simp

/-- A `getKey` bound in a failing position: if the key is absent the
whole computation fails. -/
theorem getKey_isOk {o : Obj} {k : String} (h : (lookup o k).isSome) :
    ∃ v, getKey o k = Except.ok v := by
  unfold getKey
  cases hl : lookup o k with
  | none => rw [hl] at h; simp at h
  | some v => exact ⟨v, rfl⟩

/-- In `Except`, `pure` is `ok`. -/
theorem except_pure_ok {ε α : Type} {a b : α} :
    (pure a : Except ε α) = Except.ok b ↔ a = b := by
  simp [pure, Except.pure]

/-- A bind whose left side is `ok` just continues. -/
theorem ok_bind {ε α β : Type} (a : α) (f : α → Except ε β) :
    (Except.ok a : Except ε α) >>= f = f a := rfl

/-- Full inversion of a successful v3 round flattening: every required
key is present, and both rows are exactly the projected values. -/
theorem flattenRound_v3_elim {parsed r : Obj} {p1 p2 : List JVal}
    (h : flattenRound_v3 parsed r = Except.ok (p1, p2)) :
    ∃ gid ver sona eid ct sc ridx p1id bstrat bts p1m p1rt p1o p1ov p1p p1t
      botid p2rt p2o p2ov p2p p2t,
      lookup r "game_id" = some gid ∧
      lookup parsed "version" = some ver ∧
      lookup parsed "sona" = some sona ∧
      lookup parsed "experiment_id" = some eid ∧
      lookup parsed "credit_token" = some ct ∧
      lookup parsed "survey_code" = some sc ∧
      lookup r "round_index" = some ridx ∧
      lookup r "player1_id" = some p1id ∧
      lookup parsed "player2_bot_strategy" = some bstrat ∧
      lookup r "round_begin_ts" = some bts ∧
      lookup r "player1_move" = some p1m ∧
      lookup r "player1_rt" = some p1rt ∧
      lookup r "player1_outcome" = some p1o ∧
      lookup r "player1_outcome_viewtime" = some p1ov ∧
      lookup r "player1_points" = some p1p ∧
      lookup r "player1_total" = some p1t ∧
      lookup parsed "player2_botid" = some botid ∧
      lookup r "player2_rt" = some p2rt ∧
      lookup r "player2_outcome" = some p2o ∧
      lookup r "player2_outcome_viewtime" = some p2ov ∧
      lookup r "player2_points" = some p2p ∧
      lookup r "player2_total" = some p2t ∧
      p1 = [gid, ver, sona, eid, ct, sc, ridx, p1id, JVal.jnum 0, bstrat,
        JVal.jstr "NA", bts, p1m, p1rt, p1o, p1ov, p1p, p1t] ∧
      p2 = [gid, ver, sona, eid, ct, sc, ridx, botid, JVal.jnum 1, bstrat,
        memory_struct_v3 r, bts, player2_move_v3 r, p2rt, p2o, p2ov,
        p2p, p2t] := by
  simp only [flattenRound_v3, p1_vals_v3, p2_vals_v3, except_bind_ok,
    getKey_eq_ok, except_pure_ok] at h
  obtain ⟨a, ⟨gid, hgid, ver, hver, sona, hsona, eid, heid, ct, hct, sc, hsc,
    ridx, hridx, p1id, hp1id, bstrat, hbstrat, bts, hbts, p1m, hp1m,
    p1rt, hp1rt, p1o, hp1o, p1ov, hp1ov, p1p, hp1p, p1t, hp1t, ha⟩,
    b, ⟨gid2, hgid2, ver2, hver2, sona2, hsona2, eid2, heid2, ct2, hct2,
    sc2, hsc2, ridx2, hridx2, botid, hbotid, bstrat2, hbstrat2, bts2, hbts2,
    p2rt, hp2rt, p2o, hp2o, p2ov, hp2ov, p2p, hp2p, p2t, hp2t, hb⟩,
    hab⟩ := h
  rw [hgid] at hgid2
  rw [hver] at hver2
  rw [hsona] at hsona2
  rw [heid] at heid2
  rw [hct] at hct2
  rw [hsc] at hsc2
  rw [hridx] at hridx2
  rw [hbstrat] at hbstrat2
  rw [hbts] at hbts2
  obtain rfl := Option.some.inj hgid2
  obtain rfl := Option.some.inj hver2
  obtain rfl := Option.some.inj hsona2
  obtain rfl := Option.some.inj heid2
  obtain rfl := Option.some.inj hct2
  obtain rfl := Option.some.inj hsc2
  obtain rfl := Option.some.inj hridx2
  obtain rfl := Option.some.inj hbstrat2
  obtain rfl := Option.some.inj hbts2
  obtain ⟨rfl, rfl⟩ := Prod.mk.injEq .. ▸ hab
  exact ⟨gid, ver, sona, eid, ct, sc, ridx, p1id, bstrat, bts, p1m, p1rt,
    p1o, p1ov, p1p, p1t, botid, p2rt, p2o, p2ov, p2p, p2t,
    hgid, hver, hsona, heid, hct, hsc, hridx, hp1id, hbstrat, hbts, hp1m,
    hp1rt, hp1o, hp1ov, hp1p, hp1t, hbotid, hp2rt, hp2o, hp2ov, hp2p, hp2t,
    ha.symm, hb.symm⟩

/-- A v1 round record with all required keys present flattens to exactly
the projected pair of rows. -/
theorem flattenRound_v1_intro (r : Obj)
    (gid ridx p1id bts p1m p1rt p1o p1ov p1p p1t
     p2id p2m p2rt p2o p2ov p2p p2t : JVal)
    (h1 : lookup r "game_id" = some gid)
    (h2 : lookup r "round_index" = some ridx)
    (h3 : lookup r "player1_id" = some p1id)
    (h4 : lookup r "round_begin_ts" = some bts)
    (h5 : lookup r "player1_move" = some p1m)
    (h6 : lookup r "player1_rt" = some p1rt)
    (h7 : lookup r "player1_outcome" = some p1o)
    (h8 : lookup r "player1_outcome_viewtime" = some p1ov)
    (h9 : lookup r "player1_points" = some p1p)
    (h10 : lookup r "player1_total" = some p1t)
    (h11 : lookup r "player2_id" = some p2id)
    (h12 : lookup r "player2_move" = some p2m)
    (h13 : lookup r "player2_rt" = some p2rt)
    (h14 : lookup r "player2_outcome" = some p2o)
    (h15 : lookup r "player2_outcome_viewtime" = some p2ov)
    (h16 : lookup r "player2_points" = some p2p)
    (h17 : lookup r "player2_total" = some p2t) :
    flattenRound_v1 r = Except.ok
      ([gid, ridx, p1id, bts, p1m, p1rt, p1o, p1ov, p1p, p1t],
       [gid, ridx, p2id, bts, p2m, p2rt, p2o, p2ov, p2p, p2t]) := by
  simp [flattenRound_v1, p1_vals_v1, p2_vals_v1, getKey, h1, h2, h3, h4, h5,
    h6, h7, h8, h9, h10, h11, h12, h13, h14, h15, h16, h17, ok_bind,
    pure, Except.pure]

/-- A v3 round record with all required keys present flattens to exactly
the projected pair of rows (the optional fields appearing through their
defaulting locals). -/
theorem flattenRound_v3_intro (parsed r : Obj)
    (gid ver sona eid ct sc ridx p1id bstrat bts p1m p1rt p1o p1ov p1p p1t
     botid p2rt p2o p2ov p2p p2t : JVal)
    (h1 : lookup r "game_id" = some gid)
    (h2 : lookup parsed "version" = some ver)
    (h3 : lookup parsed "sona" = some sona)
    (h4 : lookup parsed "experiment_id" = some eid)
    (h5 : lookup parsed "credit_token" = some ct)
    (h6 : lookup parsed "survey_code" = some sc)
    (h7 : lookup r "round_index" = some ridx)
    (h8 : lookup r "player1_id" = some p1id)
    (h9 : lookup parsed "player2_bot_strategy" = some bstrat)
    (h10 : lookup r "round_begin_ts" = some bts)
    (h11 : lookup r "player1_move" = some p1m)
    (h12 : lookup r "player1_rt" = some p1rt)
    (h13 : lookup r "player1_outcome" = some p1o)
    (h14 : lookup r "player1_outcome_viewtime" = some p1ov)
    (h15 : lookup r "player1_points" = some p1p)
    (h16 : lookup r "player1_total" = some p1t)
    (h17 : lookup parsed "player2_botid" = some botid)
    (h18 : lookup r "player2_rt" = some p2rt)
    (h19 : lookup r "player2_outcome" = some p2o)
    (h20 : lookup r "player2_outcome_viewtime" = some p2ov)
    (h21 : lookup r "player2_points" = some p2p)
    (h22 : lookup r "player2_total" = some p2t) :
    flattenRound_v3 parsed r = Except.ok
      ([gid, ver, sona, eid, ct, sc, ridx, p1id, JVal.jnum 0, bstrat,
        JVal.jstr "NA", bts, p1m, p1rt, p1o, p1ov, p1p, p1t],
       [gid, ver, sona, eid, ct, sc, ridx, botid, JVal.jnum 1, bstrat,
        memory_struct_v3 r, bts, player2_move_v3 r, p2rt, p2o, p2ov,
        p2p, p2t]) := by
  simp [flattenRound_v3, p1_vals_v3, p2_vals_v3, getKey, h1, h2, h3, h4, h5,
    h6, h7, h8, h9, h10, h11, h12, h13, h14, h15, h16, h17, h18, h19, h20,
    h21, h22, ok_bind, pure, Except.pure]

/-! ### Unfolding equations for the loops -/

theorem processRounds_v1_cons_ok {r : Obj} {rest : List Obj} {p q : List JVal}
    (hf : flattenRound_v1 r = Except.ok (p, q)) :
    processRounds_v1 (r :: rest) =
      (WriteEvent.data p :: WriteEvent.data q :: (processRounds_v1 rest).1,
       (processRounds_v1 rest).2) := by
  show (match flattenRound_v1 r with
    | Except.error e => ([], some e)
    | Except.ok (p1, p2) =>
      (WriteEvent.data p1 :: WriteEvent.data p2 :: (processRounds_v1 rest).1,
       (processRounds_v1 rest).2)) = _
  rw [hf]

theorem processRounds_v1_cons_err {r : Obj} {rest : List Obj} {e : PyErr}
    (hf : flattenRound_v1 r = Except.error e) :
    processRounds_v1 (r :: rest) = ([], some e) := by
  show (match flattenRound_v1 r with
    | Except.error e => ([], some e)
    | Except.ok (p1, p2) =>
      (WriteEvent.data p1 :: WriteEvent.data p2 :: (processRounds_v1 rest).1,
       (processRounds_v1 rest).2)) = _
  rw [hf]

theorem processRounds_v3_cons_ok {parsed r : Obj} {rest : List Obj}
    {p q : List JVal} (hf : flattenRound_v3 parsed r = Except.ok (p, q)) :
    processRounds_v3 parsed (r :: rest) =
      (WriteEvent.data p :: WriteEvent.data q ::
        (processRounds_v3 parsed rest).1, (processRounds_v3 parsed rest).2) := by
  show (match flattenRound_v3 parsed r with
    | Except.error e => ([], some e)
    | Except.ok (p1, p2) =>
      (WriteEvent.data p1 :: WriteEvent.data p2 ::
        (processRounds_v3 parsed rest).1, (processRounds_v3 parsed rest).2)) = _
  rw [hf]

theorem processRounds_v3_cons_err {parsed r : Obj} {rest : List Obj} {e : PyErr}
    (hf : flattenRound_v3 parsed r = Except.error e) :
    processRounds_v3 parsed (r :: rest) = ([], some e) := by
  show (match flattenRound_v3 parsed r with
    | Except.error e => ([], some e)
    | Except.ok (p1, p2) =>
      (WriteEvent.data p1 :: WriteEvent.data p2 ::
        (processRounds_v3 parsed rest).1, (processRounds_v3 parsed rest).2)) = _
  rw [hf]

theorem getKey_eq_err {o : Obj} {k : String} (h : lookup o k = none) :
    getKey o k = Except.error (PyErr.keyError k) := by
  unfold getKey; rw [h]

theorem getKey_eq_ok_of {o : Obj} {k : String} {v : JVal}
    (h : lookup o k = some v) : getKey o k = Except.ok v := by
  unfold getKey; rw [h]

theorem processFile_v1_noRounds {wi : Nat} {parsed : Obj}
    (h : lookup parsed "rounds" = none) :
    processFile_v1 wi parsed = ([], wi, some (PyErr.keyError "rounds")) := by
  unfold processFile_v1; rw [getKey_eq_err h]

theorem processFile_v1_rounds {wi : Nat} {parsed : Obj} {rounds : List Obj}
    (h : lookup parsed "rounds" = some (JVal.jarr rounds)) :
    processFile_v1 wi parsed =
      ((if wi == 0 then [WriteEvent.header header_v1] else [])
          ++ (processRounds_v1 rounds).1,
       (if wi == 0 then 1 else wi), (processRounds_v1 rounds).2) := by
  unfold processFile_v1; rw [getKey_eq_ok_of h]

theorem processFile_v1_bad {wi : Nat} {parsed : Obj} {v : JVal}
    (h : lookup parsed "rounds" = some v) (hv : v.isArr = false) :
    processFile_v1 wi parsed =
      ((if wi == 0 then [WriteEvent.header header_v1] else []),
       (if wi == 0 then 1 else wi), some PyErr.typeError) := by
  unfold processFile_v1; rw [getKey_eq_ok_of h]
  cases v <;> first | rfl | simp [JVal.isArr] at hv

theorem processFile_v3_noRounds {wi : Nat} {parsed : Obj}
    (h : lookup parsed "rounds" = none) :
    processFile_v3 wi parsed = ([], wi, some (PyErr.keyError "rounds")) := by
  unfold processFile_v3; rw [getKey_eq_err h]

theorem processFile_v3_rounds {wi : Nat} {parsed : Obj} {rounds : List Obj}
    (h : lookup parsed "rounds" = some (JVal.jarr rounds)) :
    processFile_v3 wi parsed =
      ((if wi == 0 then [WriteEvent.header header_v3] else [])
          ++ (processRounds_v3 parsed rounds).1,
       (if wi == 0 then 1 else wi), (processRounds_v3 parsed rounds).2) := by
  unfold processFile_v3; rw [getKey_eq_ok_of h]

theorem processFile_v3_bad {wi : Nat} {parsed : Obj} {v : JVal}
    (h : lookup parsed "rounds" = some v) (hv : v.isArr = false) :
    processFile_v3 wi parsed =
      ((if wi == 0 then [WriteEvent.header header_v3] else []),
       (if wi == 0 then 1 else wi), some PyErr.typeError) := by
  unfold processFile_v3; rw [getKey_eq_ok_of h]
  cases v <;> first | rfl | simp [JVal.isArr] at hv

theorem runAux_v1_cons_ok {wi : Nat} {f : Obj} {rest : List Obj}
    {evs : List WriteEvent} {wi2 : Nat}
    (h : processFile_v1 wi f = (evs, wi2, none)) :
    runAux_v1 wi (f :: rest) =
      (evs ++ (runAux_v1 wi2 rest).1, (runAux_v1 wi2 rest).2) := by
  show (match processFile_v1 wi f with
    | (evs, wi, none) =>
      (evs ++ (runAux_v1 wi rest).1, (runAux_v1 wi rest).2)
    | (evs, _, some e) => (evs, some e)) = _
  rw [h]

theorem runAux_v1_cons_err {wi : Nat} {f : Obj} {rest : List Obj}
    {evs : List WriteEvent} {wi2 : Nat} {e : PyErr}
    (h : processFile_v1 wi f = (evs, wi2, some e)) :
    runAux_v1 wi (f :: rest) = (evs, some e) := by
  show (match processFile_v1 wi f with
    | (evs, wi, none) =>
      (evs ++ (runAux_v1 wi rest).1, (runAux_v1 wi rest).2)
    | (evs, _, some e) => (evs, some e)) = _
  rw [h]

theorem runAux_v3_cons_ok {wi : Nat} {f : Obj} {rest : List Obj}
    {evs : List WriteEvent} {wi2 : Nat}
    (h : processFile_v3 wi f = (evs, wi2, none)) :
    runAux_v3 wi (f :: rest) =
      (evs ++ (runAux_v3 wi2 rest).1, (runAux_v3 wi2 rest).2) := by
  show (match processFile_v3 wi f with
    | (evs, wi, none) =>
      (evs ++ (runAux_v3 wi rest).1, (runAux_v3 wi rest).2)
    | (evs, _, some e) => (evs, some e)) = _
  rw [h]

theorem runAux_v3_cons_err {wi : Nat} {f : Obj} {rest : List Obj}
    {evs : List WriteEvent} {wi2 : Nat} {e : PyErr}
    (h : processFile_v3 wi f = (evs, wi2, some e)) :
    runAux_v3 wi (f :: rest) = (evs, some e) := by
  show (match processFile_v3 wi f with
    | (evs, wi, none) =>
      (evs ++ (runAux_v3 wi rest).1, (runAux_v3 wi rest).2)
    | (evs, _, some e) => (evs, some e)) = _
  rw [h]

/-! ### Round-loop structure -/

/-- An error-free v1 round loop writes exactly two data rows per round,
player 1 then player 2, in round order. -/
theorem processRounds_v1_spec : ∀ (rounds : List Obj),
    (processRounds_v1 rounds).2 = none →
    (processRounds_v1 rounds).1.length = 2 * rounds.length ∧
    ∀ i (hi : i < rounds.length), ∃ p q,
      flattenRound_v1 (rounds.get ⟨i, hi⟩) = Except.ok (p, q) ∧
      (processRounds_v1 rounds).1.get? (2 * i) = some (WriteEvent.data p) ∧
      (processRounds_v1 rounds).1.get? (2 * i + 1) = some (WriteEvent.data q) := by
  intro rounds
  induction rounds with
  | nil => exact fun _ => ⟨rfl, fun i hi => absurd hi (Nat.not_lt_zero i)⟩
  | cons r rest ih =>
    intro h
    cases hf : flattenRound_v1 r with
    | error e => rw [processRounds_v1_cons_err hf] at h; simp at h
    | ok pq =>
      obtain ⟨p, q⟩ := pq
      rw [processRounds_v1_cons_ok hf] at h ⊢
      obtain ⟨hlen, hidx⟩ := ih h
      constructor
      · simp only [List.length_cons, hlen]
        omega
      · intro i hi
        cases i with
        | zero => exact ⟨p, q, hf, rfl, rfl⟩
        | succ j =>
          have hj : j < rest.length := Nat.lt_of_succ_lt_succ hi
          obtain ⟨p2, q2, hfr, h1, h2⟩ := hidx j hj
          refine ⟨p2, q2, ?_, ?_, ?_⟩
          · simpa using hfr
          · rw [show 2 * (j + 1) = 2 * j + 1 + 1 from by omega]
            simpa using h1
          · rw [show 2 * (j + 1) + 1 = (2 * j + 1) + 1 + 1 from by omega]
            simpa using h2

/-- An error-free v3 round loop writes exactly two data rows per round,
player 1 then player 2, in round order. -/
theorem processRounds_v3_spec (parsed : Obj) : ∀ (rounds : List Obj),
    (processRounds_v3 parsed rounds).2 = none →
    (processRounds_v3 parsed rounds).1.length = 2 * rounds.length ∧
    ∀ i (hi : i < rounds.length), ∃ p q,
      flattenRound_v3 parsed (rounds.get ⟨i, hi⟩) = Except.ok (p, q) ∧
      (processRounds_v3 parsed rounds).1.get? (2 * i)
        = some (WriteEvent.data p) ∧
      (processRounds_v3 parsed rounds).1.get? (2 * i + 1)
        = some (WriteEvent.data q) := by
  intro rounds
  induction rounds with
  | nil => exact fun _ => ⟨rfl, fun i hi => absurd hi (Nat.not_lt_zero i)⟩
  | cons r rest ih =>
    intro h
    cases hf : flattenRound_v3 parsed r with
    | error e => rw [processRounds_v3_cons_err hf] at h; simp at h
    | ok pq =>
      obtain ⟨p, q⟩ := pq
      rw [processRounds_v3_cons_ok hf] at h ⊢
      obtain ⟨hlen, hidx⟩ := ih h
      constructor
      · simp only [List.length_cons, hlen]
        omega
      · intro i hi
        cases i with
        | zero => exact ⟨p, q, hf, rfl, rfl⟩
        | succ j =>
          have hj : j < rest.length := Nat.lt_of_succ_lt_succ hi
          obtain ⟨p2, q2, hfr, h1, h2⟩ := hidx j hj
          refine ⟨p2, q2, ?_, ?_, ?_⟩
          · simpa using hfr
          · rw [show 2 * (j + 1) = 2 * j + 1 + 1 from by omega]
            simpa using h1
          · rw [show 2 * (j + 1) + 1 = (2 * j + 1) + 1 + 1 from by omega]
            simpa using h2

/-! ### Writer invariants -/

/-- The round loop only writes data rows (v1). -/
theorem processRounds_v1_allData (rounds : List Obj) :
    (processRounds_v1 rounds).1.all WriteEvent.isData = true := by
  induction rounds with
  | nil => rfl
  | cons r rest ih =>
    cases hf : flattenRound_v1 r with
    | error e => rw [processRounds_v1_cons_err hf]; rfl
    | ok pq =>
      obtain ⟨p, q⟩ := pq
      rw [processRounds_v1_cons_ok hf]
      simpa [WriteEvent.isData] using ih

/-- The round loop only writes data rows (v3). -/
theorem processRounds_v3_allData (parsed : Obj) (rounds : List Obj) :
    (processRounds_v3 parsed rounds).1.all WriteEvent.isData = true := by
  induction rounds with
  | nil => rfl
  | cons r rest ih =>
    cases hf : flattenRound_v3 parsed r with
    | error e => rw [processRounds_v3_cons_err hf]; rfl
    | ok pq =>
      obtain ⟨p, q⟩ := pq
      rw [processRounds_v3_cons_ok hf]
      simpa [WriteEvent.isData] using ih

/-- An all-data event list contains no header writes. -/
theorem countHeaders_zero {evs : List WriteEvent}
    (h : evs.all WriteEvent.isData = true) : countHeaders evs = 0 := by
  simp only [countHeaders, List.length_eq_zero, List.filter_eq_nil_iff]
  intro e he
  have := (List.all_eq_true.mp h) e he
  simp [this]

/-- Header counting distributes over append. -/
theorem countHeaders_append (a b : List WriteEvent) :
    countHeaders (a ++ b) = countHeaders a + countHeaders b := by
  simp [countHeaders, List.filter_append]

/-- With the header already written (`write_index = 1`) a v1 file writes
only data rows and keeps `write_index = 1`. -/
theorem processFile_v1_one (parsed : Obj) :
    (processFile_v1 1 parsed).1.all WriteEvent.isData = true ∧
    (processFile_v1 1 parsed).2.1 = 1 := by
  cases hl : lookup parsed "rounds" with
  | none => rw [processFile_v1_noRounds hl]; exact ⟨rfl, rfl⟩
  | some v =>
    cases v with
    | jarr rounds =>
      rw [processFile_v1_rounds hl]
      refine ⟨?_, rfl⟩
      simpa using processRounds_v1_allData rounds
    | jstr s => rw [processFile_v1_bad hl rfl]; exact ⟨rfl, rfl⟩
    | jnum n => rw [processFile_v1_bad hl rfl]; exact ⟨rfl, rfl⟩
    | jobj o => rw [processFile_v1_bad hl rfl]; exact ⟨rfl, rfl⟩

/-- With the header already written (`write_index = 1`) a v3 file writes
only data rows and keeps `write_index = 1`. -/
theorem processFile_v3_one (parsed : Obj) :
    (processFile_v3 1 parsed).1.all WriteEvent.isData = true ∧
    (processFile_v3 1 parsed).2.1 = 1 := by
  cases hl : lookup parsed "rounds" with
  | none => rw [processFile_v3_noRounds hl]; exact ⟨rfl, rfl⟩
  | some v =>
    cases v with
    | jarr rounds =>
      rw [processFile_v3_rounds hl]
      refine ⟨?_, rfl⟩
      simpa using processRounds_v3_allData parsed rounds
    | jstr s => rw [processFile_v3_bad hl rfl]; exact ⟨rfl, rfl⟩
    | jnum n => rw [processFile_v3_bad hl rfl]; exact ⟨rfl, rfl⟩
    | jobj o => rw [processFile_v3_bad hl rfl]; exact ⟨rfl, rfl⟩

/-- After the header is written, the rest of a v1 run is all data rows. -/
theorem runAux_v1_one_allData : ∀ (fs : List Obj),
    (runAux_v1 1 fs).1.all WriteEvent.isData = true := by
  intro fs
  induction fs with
  | nil => rfl
  | cons f t ih =>
    rcases hp : processFile_v1 1 f with ⟨evs, wi2, err⟩
    have hone := processFile_v1_one f
    rw [hp] at hone
    obtain ⟨hdata, hwi⟩ := hone
    simp only at hdata hwi
    subst hwi
    cases err with
    | some e => rw [runAux_v1_cons_err hp]; simpa using hdata
    | none =>
      rw [runAux_v1_cons_ok hp]
      simp only [List.all_append, Bool.and_eq_true]
      exact ⟨by simpa using hdata, by simpa using ih⟩

/-- After the header is written, the rest of a v3 run is all data rows. -/
theorem runAux_v3_one_allData : ∀ (fs : List Obj),
    (runAux_v3 1 fs).1.all WriteEvent.isData = true := by
  intro fs
  induction fs with
  | nil => rfl
  | cons f t ih =>
    rcases hp : processFile_v3 1 f with ⟨evs, wi2, err⟩
    have hone := processFile_v3_one f
    rw [hp] at hone
    obtain ⟨hdata, hwi⟩ := hone
    simp only at hdata hwi
    subst hwi
    cases err with
    | some e => rw [runAux_v3_cons_err hp]; simpa using hdata
    | none =>
      rw [runAux_v3_cons_ok hp]
      simp only [List.all_append, Bool.and_eq_true]
      exact ⟨by simpa using hdata, by simpa using ih⟩

/-! ### Abort semantics -/

/-- Once the v1 round loop has hit an error, later rounds are never
touched: the output is exactly what was written before the failure. -/
theorem processRounds_v1_abort : ∀ (rs more : List Obj),
    (processRounds_v1 rs).2.isSome = true →
    processRounds_v1 (rs ++ more) = processRounds_v1 rs := by
  intro rs more
  induction rs with
  | nil => intro h; simp [processRounds_v1] at h
  | cons r t ih =>
    intro h
    cases hf : flattenRound_v1 r with
    | error e =>
      rw [List.cons_append, processRounds_v1_cons_err hf,
        processRounds_v1_cons_err hf]
    | ok pq =>
      obtain ⟨p, q⟩ := pq
      rw [processRounds_v1_cons_ok hf] at h
      simp only [Option.isSome] at h
      rw [List.cons_append, processRounds_v1_cons_ok hf,
        processRounds_v1_cons_ok hf, ih h]

/-- Once the v3 round loop has hit an error, later rounds are never
touched. -/
theorem processRounds_v3_abort (parsed : Obj) : ∀ (rs more : List Obj),
    (processRounds_v3 parsed rs).2.isSome = true →
    processRounds_v3 parsed (rs ++ more) = processRounds_v3 parsed rs := by
  intro rs more
  induction rs with
  | nil => intro h; simp [processRounds_v3] at h
  | cons r t ih =>
    intro h
    cases hf : flattenRound_v3 parsed r with
    | error e =>
      rw [List.cons_append, processRounds_v3_cons_err hf,
        processRounds_v3_cons_err hf]
    | ok pq =>
      obtain ⟨p, q⟩ := pq
      rw [processRounds_v3_cons_ok hf] at h
      simp only [Option.isSome] at h
      rw [List.cons_append, processRounds_v3_cons_ok hf,
        processRounds_v3_cons_ok hf, ih h]

/-- Once a v1 run has hit an error, later files are never touched. -/
theorem runAux_v1_abort : ∀ (fs : List Obj) (wi : Nat) (rest : List Obj),
    (runAux_v1 wi fs).2.isSome = true →
    runAux_v1 wi (fs ++ rest) = runAux_v1 wi fs := by
  intro fs
  induction fs with
  | nil => intro wi rest h; simp [runAux_v1] at h
  | cons f t ih =>
    intro wi rest h
    rcases hp : processFile_v1 wi f with ⟨evs, wi2, err⟩
    cases err with
    | some e =>
      rw [List.cons_append, runAux_v1_cons_err hp, runAux_v1_cons_err hp]
    | none =>
      rw [runAux_v1_cons_ok hp] at h
      simp only at h
      rw [List.cons_append, runAux_v1_cons_ok hp, runAux_v1_cons_ok hp,
        ih wi2 rest h]

/-- Once a v3 run has hit an error, later files are never touched. -/
theorem runAux_v3_abort : ∀ (fs : List Obj) (wi : Nat) (rest : List Obj),
    (runAux_v3 wi fs).2.isSome = true →
    runAux_v3 wi (fs ++ rest) = runAux_v3 wi fs := by
  intro fs
  induction fs with
  | nil => intro wi rest h; simp [runAux_v3] at h
  | cons f t ih =>
    intro wi rest h
    rcases hp : processFile_v3 wi f with ⟨evs, wi2, err⟩
    cases err with
    | some e =>
      rw [List.cons_append, runAux_v3_cons_err hp, runAux_v3_cons_err hp]
    | none =>
      rw [runAux_v3_cons_ok hp] at h
      simp only at h
      rw [List.cons_append, runAux_v3_cons_ok hp, runAux_v3_cons_ok hp,
        ih wi2 rest h]

/-! ### Header placement -/

/-- A v1 run writes the header exactly when the first processed file has a `rounds`
lookup succeeds (the lookup precedes the header guard in the source). -/
theorem run_v1_headers : ∀ (fs : List Obj),
    countHeaders (run_v1 fs).1 =
      (match fs with
       | [] => 0
       | f :: _ => if (lookup f "rounds").isSome then 1 else 0) := by
  intro fs
  cases fs with
  | nil => rfl
  | cons f t =>
    show countHeaders (runAux_v1 0 (f :: t)).1 = _
    cases hl : lookup f "rounds" with
    | none =>
      rw [runAux_v1_cons_err (processFile_v1_noRounds hl)]
      simp [countHeaders, hl]
    | some v =>
      cases v with
      | jarr rounds =>
        cases herr : (processRounds_v1 rounds).2 with
        | none =>
          have hpf : processFile_v1 0 f =
              ([WriteEvent.header header_v1] ++ (processRounds_v1 rounds).1,
               1, none) := by
            rw [processFile_v1_rounds hl, herr]
            rfl
          rw [runAux_v1_cons_ok hpf]
          simp only [countHeaders_append, List.append_assoc]
          rw [countHeaders_zero (processRounds_v1_allData rounds),
            countHeaders_zero (runAux_v1_one_allData t)]
          simp [countHeaders, List.filter, WriteEvent.isData, hl]
        | some e =>
          have hpf : processFile_v1 0 f =
              ([WriteEvent.header header_v1] ++ (processRounds_v1 rounds).1,
               1, some e) := by
            rw [processFile_v1_rounds hl, herr]
            rfl
          rw [runAux_v1_cons_err hpf]
          simp only [countHeaders_append]
          rw [countHeaders_zero (processRounds_v1_allData rounds)]
          simp [countHeaders, List.filter, WriteEvent.isData, hl]
      | jstr s =>
        rw [runAux_v1_cons_err (processFile_v1_bad hl rfl)]
        simp [countHeaders, List.filter, WriteEvent.isData, hl]
      | jnum n =>
        rw [runAux_v1_cons_err (processFile_v1_bad hl rfl)]
        simp [countHeaders, List.filter, WriteEvent.isData, hl]
      | jobj o =>
        rw [runAux_v1_cons_err (processFile_v1_bad hl rfl)]
        simp [countHeaders, List.filter, WriteEvent.isData, hl]

/-- A v3 run writes the header exactly when the first processed file has a `rounds`
lookup succeeds. -/
theorem run_v3_headers : ∀ (fs : List Obj),
    countHeaders (run_v3 fs).1 =
      (match fs with
       | [] => 0
       | f :: _ => if (lookup f "rounds").isSome then 1 else 0) := by
  intro fs
  cases fs with
  | nil => rfl
  | cons f t =>
    show countHeaders (runAux_v3 0 (f :: t)).1 = _
    cases hl : lookup f "rounds" with
    | none =>
      rw [runAux_v3_cons_err (processFile_v3_noRounds hl)]
      simp [countHeaders, hl]
    | some v =>
      cases v with
      | jarr rounds =>
        cases herr : (processRounds_v3 f rounds).2 with
        | none =>
          have hpf : processFile_v3 0 f =
              ([WriteEvent.header header_v3] ++ (processRounds_v3 f rounds).1,
               1, none) := by
            rw [processFile_v3_rounds hl, herr]
            rfl
          rw [runAux_v3_cons_ok hpf]
          simp only [countHeaders_append, List.append_assoc]
          rw [countHeaders_zero (processRounds_v3_allData f rounds),
            countHeaders_zero (runAux_v3_one_allData t)]
          simp [countHeaders, List.filter, WriteEvent.isData, hl]
        | some e =>
          have hpf : processFile_v3 0 f =
              ([WriteEvent.header header_v3] ++ (processRounds_v3 f rounds).1,
               1, some e) := by
            rw [processFile_v3_rounds hl, herr]
            rfl
          rw [runAux_v3_cons_err hpf]
          simp only [countHeaders_append]
          rw [countHeaders_zero (processRounds_v3_allData f rounds)]
          simp [countHeaders, List.filter, WriteEvent.isData, hl]
      | jstr s =>
        rw [runAux_v3_cons_err (processFile_v3_bad hl rfl)]
        simp [countHeaders, List.filter, WriteEvent.isData, hl]
      | jnum n =>
        rw [runAux_v3_cons_err (processFile_v3_bad hl rfl)]
        simp [countHeaders, List.filter, WriteEvent.isData, hl]
      | jobj o =>
        rw [runAux_v3_cons_err (processFile_v3_bad hl rfl)]
        simp [countHeaders, List.filter, WriteEvent.isData, hl]

/-- Shape of the event list of a v1 run: empty, or the header first and only
data rows after it. -/
theorem run_v1_shape : ∀ (fs : List Obj),
    (run_v1 fs).1 = [] ∨ ∃ rest,
      (run_v1 fs).1 = WriteEvent.header header_v1 :: rest ∧
      rest.all WriteEvent.isData = true := by
  intro fs
  cases fs with
  | nil => exact Or.inl rfl
  | cons f t =>
    simp only [run_v1]
    cases hl : lookup f "rounds" with
    | none =>
      rw [runAux_v1_cons_err (processFile_v1_noRounds hl)]
      exact Or.inl rfl
    | some v =>
      cases v with
      | jarr rounds =>
        cases herr : (processRounds_v1 rounds).2 with
        | none =>
          have hpf : processFile_v1 0 f =
              ([WriteEvent.header header_v1] ++ (processRounds_v1 rounds).1,
               1, none) := by
            rw [processFile_v1_rounds hl, herr]
            rfl
          rw [runAux_v1_cons_ok hpf]
          refine Or.inr ⟨(processRounds_v1 rounds).1 ++ (runAux_v1 1 t).1,
            by simp, ?_⟩
          simp only [List.all_append, Bool.and_eq_true]
          exact ⟨processRounds_v1_allData rounds, runAux_v1_one_allData t⟩
        | some e =>
          have hpf : processFile_v1 0 f =
              ([WriteEvent.header header_v1] ++ (processRounds_v1 rounds).1,
               1, some e) := by
            rw [processFile_v1_rounds hl, herr]
            rfl
          rw [runAux_v1_cons_err hpf]
          exact Or.inr ⟨(processRounds_v1 rounds).1, rfl,
            processRounds_v1_allData rounds⟩
      | jstr s =>
        rw [runAux_v1_cons_err (processFile_v1_bad hl rfl)]
        exact Or.inr ⟨[], rfl, rfl⟩
      | jnum n =>
        rw [runAux_v1_cons_err (processFile_v1_bad hl rfl)]
        exact Or.inr ⟨[], rfl, rfl⟩
      | jobj o =>
        rw [runAux_v1_cons_err (processFile_v1_bad hl rfl)]
        exact Or.inr ⟨[], rfl, rfl⟩

/-- Shape of the event list of a v3 run: empty, or the header first and only
data rows after it. -/
theorem run_v3_shape : ∀ (fs : List Obj),
    (run_v3 fs).1 = [] ∨ ∃ rest,
      (run_v3 fs).1 = WriteEvent.header header_v3 :: rest ∧
      rest.all WriteEvent.isData = true := by
  intro fs
  cases fs with
  | nil => exact Or.inl rfl
  | cons f t =>
    simp only [run_v3]
    cases hl : lookup f "rounds" with
    | none =>
      rw [runAux_v3_cons_err (processFile_v3_noRounds hl)]
      exact Or.inl rfl
    | some v =>
      cases v with
      | jarr rounds =>
        cases herr : (processRounds_v3 f rounds).2 with
        | none =>
          have hpf : processFile_v3 0 f =
              ([WriteEvent.header header_v3] ++ (processRounds_v3 f rounds).1,
               1, none) := by
            rw [processFile_v3_rounds hl, herr]
            rfl
          rw [runAux_v3_cons_ok hpf]
          refine Or.inr ⟨(processRounds_v3 f rounds).1 ++ (runAux_v3 1 t).1,
            by simp, ?_⟩
          simp only [List.all_append, Bool.and_eq_true]
          exact ⟨processRounds_v3_allData f rounds, runAux_v3_one_allData t⟩
        | some e =>
          have hpf : processFile_v3 0 f =
              ([WriteEvent.header header_v3] ++ (processRounds_v3 f rounds).1,
               1, some e) := by
            rw [processFile_v3_rounds hl, herr]
            rfl
          rw [runAux_v3_cons_err hpf]
          exact Or.inr ⟨(processRounds_v3 f rounds).1, rfl,
            processRounds_v3_allData f rounds⟩
      | jstr s =>
        rw [runAux_v3_cons_err (processFile_v3_bad hl rfl)]
        exact Or.inr ⟨[], rfl, rfl⟩
      | jnum n =>
        rw [runAux_v3_cons_err (processFile_v3_bad hl rfl)]
        exact Or.inr ⟨[], rfl, rfl⟩
      | jobj o =>
        rw [runAux_v3_cons_err (processFile_v3_bad hl rfl)]
        exact Or.inr ⟨[], rfl, rfl⟩


theorem isPrefAux_iff : ∀ (a b : List Char),
    isPrefAux a b = true ↔ ∃ t, b = a ++ t := by
  intro a
  induction a with
  | nil => intro b; simp [isPrefAux]
  | cons x xs ih =>
    intro b
    cases b with
    | nil => simp [isPrefAux]
    | cons y ys =>
      rw [isPrefAux]
      simp only [Bool.and_eq_true, beq_iff_eq, ih ys]
      constructor
      · rintro ⟨rfl, t, rfl⟩
        exact ⟨t, rfl⟩
      · rintro ⟨t, ht⟩
        simp only [List.cons_append, List.cons.injEq] at ht
        exact ⟨ht.1.symm, t, ht.2⟩

theorem containsAux_iff : ∀ (n h : List Char),
    containsAux n h = true ↔ ∃ pre post, h = pre ++ n ++ post := by
  intro n h
  induction h with
  | nil =>
    cases n <;> simp [containsAux]
  | cons c t ih =>
    rw [containsAux]
    simp only [Bool.or_eq_true, isPrefAux_iff, ih]
    constructor
    · rintro (⟨post, hp⟩ | ⟨pre, post, hp⟩)
      · exact ⟨[], post, by simp [hp]⟩
      · exact ⟨c :: pre, post, by simp [hp]⟩
    · rintro ⟨pre, post, hp⟩
      cases pre with
      | nil => exact Or.inl ⟨post, by simpa using hp⟩
      | cons c2 pre2 =>
        simp only [List.cons_append, List.cons.injEq, List.append_assoc] at hp
        exact Or.inr ⟨pre2, post, by simp [hp.2]⟩

theorem strIn_iff (sub s : String) :
    strIn sub s = true ↔ ∃ pre post, s.data = pre ++ sub.data ++ post :=
  containsAux_iff sub.data s.data

theorem strEndsWith_iff (s suf : String) :
    strEndsWith s suf = true ↔ ∃ pre, s.data = pre ++ suf.data := by
  rw [strEndsWith, isPrefAux_iff]
  constructor
  · rintro ⟨t, ht⟩
    refine ⟨t.reverse, ?_⟩
    have := congrArg List.reverse ht
    simpa using this
  · rintro ⟨pre, hp⟩
    exact ⟨pre.reverse, by simp [hp]⟩

/-! ## Claims -/

/-- C1: for every session record whose rounds list has N entries, the
flattener emits exactly 2N data rows, with the player-1 row immediately
followed by the player-2 row for each round, and rounds appearing in the
order they occur in the rounds list (both scripts). -/
theorem claim1_two_rows_per_round (parsed : Obj) (rounds : List Obj) :
    ((processRounds_v1 rounds).2 = none →
      (processRounds_v1 rounds).1.length = 2 * rounds.length ∧
      ∀ i (hi : i < rounds.length), ∃ p q,
        flattenRound_v1 (rounds.get ⟨i, hi⟩) = Except.ok (p, q) ∧
        (processRounds_v1 rounds).1.get? (2 * i) = some (WriteEvent.data p) ∧
        (processRounds_v1 rounds).1.get? (2 * i + 1)
          = some (WriteEvent.data q)) ∧
    ((processRounds_v3 parsed rounds).2 = none →
      (processRounds_v3 parsed rounds).1.length = 2 * rounds.length ∧
      ∀ i (hi : i < rounds.length), ∃ p q,
        flattenRound_v3 parsed (rounds.get ⟨i, hi⟩) = Except.ok (p, q) ∧
        (processRounds_v3 parsed rounds).1.get? (2 * i)
          = some (WriteEvent.data p) ∧
        (processRounds_v3 parsed rounds).1.get? (2 * i + 1)
          = some (WriteEvent.data q)) :=
  ⟨processRounds_v1_spec rounds, processRounds_v3_spec parsed rounds⟩

/-- Witness for C1 at the concrete one-round session of Scenario A. -/
theorem claim1_two_rows_per_round_witness :
    (processRounds_v1 [g1round]).1.length = 2 * [g1round].length ∧
    (processRounds_v3 sessionV3 [g1round]).1.length = 2 * [g1round].length :=
  ⟨((claim1_two_rows_per_round sessionV3 [g1round]).1 rfl).1,
   ((claim1_two_rows_per_round sessionV3 [g1round]).2 rfl).1⟩

/-- C5: the header row is written at most once, before any data row and
never again; an empty input directory yields an output with zero rows,
not even a header (both scripts). -/
theorem claim5_header_written_once :
    run_v1 ([] : List Obj) = ([], none) ∧
    run_v3 ([] : List Obj) = ([], none) ∧
    (∀ fs : List Obj, (run_v1 fs).1 = [] ∨ ∃ rest,
      (run_v1 fs).1 = WriteEvent.header header_v1 :: rest ∧
      rest.all WriteEvent.isData = true) ∧
    (∀ fs : List Obj, (run_v3 fs).1 = [] ∨ ∃ rest,
      (run_v3 fs).1 = WriteEvent.header header_v3 :: rest ∧
      rest.all WriteEvent.isData = true) :=
  ⟨rfl, rfl, run_v1_shape, run_v3_shape⟩

/-- C8: running a script twice against an unchanged input directory
produces byte-identical output files: the output is a deterministic
function of the listing and file contents, and the `"w"` open destroys
whatever the previous run left at the output path. -/
theorem claim8_idempotence :
    ∀ (listing : List String) (readFile : String → Obj) (prev : String),
      script_v1 listing readFile (script_v1 listing readFile prev) =
        script_v1 listing readFile prev ∧
      script_v3 listing readFile (script_v3 listing readFile prev) =
        script_v3 listing readFile prev :=
  fun _ _ _ => ⟨rfl, rfl⟩

/-- A name rejected by the filter is never in the selected files. -/
theorem files_contains_false {p : String} (hp : selectFile p = false) :
    ∀ listing : List String, (files listing).contains p = false := by
  intro listing
  cases hc : (files listing).contains p with
  | false => rfl
  | true =>
    exfalso
    have hmem : p ∈ files listing := by simpa using hc
    have := List.mem_filter.mp hmem
    rw [hp] at this
    exact Bool.false_ne_true this.2

/-- Every selected file name ends with `".json"`. -/
theorem files_all_json (listing : List String) :
    (files listing).all (fun g => strEndsWith g ".json") = true := by
  rw [List.all_eq_true]
  intro g hg
  have hsel := (List.mem_filter.mp hg).2
  simp only [selectFile, Bool.and_eq_true] at hsel
  exact hsel.1.1.1

/-- C7: Scenario A — a v1 run over a directory holding the single file
`g1.json` with the one-round session of the spec produces exactly one header
row and two data rows, the first data row being
`g1,0,p1,100,rock,500,win,200,1,1`. -/
theorem claim7_scenario_a :
    script_v1 ["g1.json"] (fun _ => g1session) "" =
      "game_id,round_index,player_id,round_begin_ts,player_move,player_rt,player_outcome,player_outcome_viewtime,player_points,player_total\r\n"
        ++ "g1,0,p1,100,rock,500,win,200,1,1\r\n"
        ++ "g1,0,p2,100,scissors,600,lose,200,0,0\r\n" := by
  set_option maxRecDepth 10000 in rfl

/-- C3: the scanner selects a filename iff it ends with `".json"` and
contains none of the substrings `"TEST"`, `"freeResp"`, `"sliderData"`
(with substring and suffix given their mathematical meaning); in
particular `pilot_TEST_01.json` is never selected, and every selected
file ends with `".json"`. -/
theorem claim3_scanner_selection :
    (∀ (listing : List String) (f : String),
      f ∈ files listing ↔ f ∈ listing ∧ selectFile f = true) ∧
    (∀ f : String, selectFile f = true ↔
      strEndsWith f ".json" = true ∧ strIn "TEST" f = false ∧
      strIn "freeResp" f = false ∧ strIn "sliderData" f = false) ∧
    (∀ sub s : String, strIn sub s = true ↔
      ∃ pre post, s.data = pre ++ sub.data ++ post) ∧
    (∀ s suf : String, strEndsWith s suf = true ↔
      ∃ pre, s.data = pre ++ suf.data) ∧
    selectFile "pilot_TEST_01.json" = false ∧
    (∀ listing : List String,
      (files listing).contains "pilot_TEST_01.json" = false) ∧
    (∀ listing : List String,
      (files listing).all (fun g => strEndsWith g ".json") = true) := by
  refine ⟨fun listing f => List.mem_filter, fun f => ?_, strIn_iff,
    strEndsWith_iff, by decide, files_contains_false (by decide),
    files_all_json⟩
  simp only [selectFile, Bool.and_eq_true, Bool.not_eq_true', and_assoc]

/-- C2: for a round record containing all required fields (optional v3
fields included), every field of each emitted row equals the
corresponding JSON field value unchanged, except the fixed `is_bot`
column (`0` in the player-1 row, `1` in the player-2 row of v3) and the
constant `"NA"` memory column of the player-1 row. -/
theorem claim2_identity_mapping (parsed r : Obj)
    (gid ridx p1id bts p1m p1rt p1o p1ov p1p p1t
     p2id p2m p2rt p2o p2ov p2p p2t
     ver sona eid ct sc bstrat botid ms : JVal)
    (h1 : lookup r "game_id" = some gid)
    (h2 : lookup r "round_index" = some ridx)
    (h3 : lookup r "player1_id" = some p1id)
    (h4 : lookup r "round_begin_ts" = some bts)
    (h5 : lookup r "player1_move" = some p1m)
    (h6 : lookup r "player1_rt" = some p1rt)
    (h7 : lookup r "player1_outcome" = some p1o)
    (h8 : lookup r "player1_outcome_viewtime" = some p1ov)
    (h9 : lookup r "player1_points" = some p1p)
    (h10 : lookup r "player1_total" = some p1t)
    (h11 : lookup r "player2_id" = some p2id)
    (h12 : lookup r "player2_move" = some p2m)
    (h13 : lookup r "player2_rt" = some p2rt)
    (h14 : lookup r "player2_outcome" = some p2o)
    (h15 : lookup r "player2_outcome_viewtime" = some p2ov)
    (h16 : lookup r "player2_points" = some p2p)
    (h17 : lookup r "player2_total" = some p2t)
    (h18 : lookup parsed "version" = some ver)
    (h19 : lookup parsed "sona" = some sona)
    (h20 : lookup parsed "experiment_id" = some eid)
    (h21 : lookup parsed "credit_token" = some ct)
    (h22 : lookup parsed "survey_code" = some sc)
    (h23 : lookup parsed "player2_bot_strategy" = some bstrat)
    (h24 : lookup parsed "player2_botid" = some botid)
    (h25 : lookup r "player2_memory_struct" = some ms) :
    flattenRound_v1 r = Except.ok
      ([gid, ridx, p1id, bts, p1m, p1rt, p1o, p1ov, p1p, p1t],
       [gid, ridx, p2id, bts, p2m, p2rt, p2o, p2ov, p2p, p2t]) ∧
    flattenRound_v3 parsed r = Except.ok
      ([gid, ver, sona, eid, ct, sc, ridx, p1id, JVal.jnum 0, bstrat,
        JVal.jstr "NA", bts, p1m, p1rt, p1o, p1ov, p1p, p1t],
       [gid, ver, sona, eid, ct, sc, ridx, botid, JVal.jnum 1, bstrat,
        ms, bts, p2m, p2rt, p2o, p2ov, p2p, p2t]) := by
  have hms : memory_struct_v3 r = ms := by simp [memory_struct_v3, h25]
  have hmv : player2_move_v3 r = p2m := by simp [player2_move_v3, h12]
  refine ⟨flattenRound_v1_intro r _ _ _ _ _ _ _ _ _ _ _ _ _ _ _ _ _
    h1 h2 h3 h4 h5 h6 h7 h8 h9 h10 h11 h12 h13 h14 h15 h16 h17, ?_⟩
  have hv3 := flattenRound_v3_intro parsed r
    _ _ _ _ _ _ _ _ _ _ _ _ _ _ _ _ _ _ _ _ _ _
    h1 h18 h19 h20 h21 h22 h2 h3 h23 h4 h5 h6 h7 h8 h9 h10 h24 h13 h14
    h15 h16 h17
  rw [hms, hmv] at hv3
  exact hv3

/-- Witness for C2 at the Scenario A round extended with a memory
structure, inside the v3 session fixture. -/
theorem claim2_identity_mapping_witness :
    flattenRound_v1 g1full = Except.ok
      ([JVal.jstr "g1", JVal.jnum 0, JVal.jstr "p1", JVal.jnum 100,
        JVal.jstr "rock", JVal.jnum 500, JVal.jstr "win", JVal.jnum 200,
        JVal.jnum 1, JVal.jnum 1],
       [JVal.jstr "g1", JVal.jnum 0, JVal.jstr "p2", JVal.jnum 100,
        JVal.jstr "scissors", JVal.jnum 600, JVal.jstr "lose",
        JVal.jnum 200, JVal.jnum 0, JVal.jnum 0]) ∧
    flattenRound_v3 sessionV3 g1full = Except.ok
      ([JVal.jstr "g1", JVal.jstr "3.0", JVal.jnum 1, JVal.jnum 1185,
        JVal.jstr "tok", JVal.jnum 77, JVal.jnum 0, JVal.jstr "p1",
        JVal.jnum 0, JVal.jstr "nash", JVal.jstr "NA", JVal.jnum 100,
        JVal.jstr "rock", JVal.jnum 500, JVal.jstr "win", JVal.jnum 200,
        JVal.jnum 1, JVal.jnum 1],
       [JVal.jstr "g1", JVal.jstr "3.0", JVal.jnum 1, JVal.jnum 1185,
        JVal.jstr "tok", JVal.jnum 77, JVal.jnum 0, JVal.jstr "bot_17",
        JVal.jnum 1, JVal.jstr "nash", JVal.jobj [("rock", JVal.jnum 1)],
        JVal.jnum 100, JVal.jstr "scissors", JVal.jnum 600,
        JVal.jstr "lose", JVal.jnum 200, JVal.jnum 0, JVal.jnum 0]) :=
  claim2_identity_mapping sessionV3 g1full
    _ _ _ _ _ _ _ _ _ _ _ _ _ _ _ _ _ _ _ _ _ _ _ _ _
    rfl rfl rfl rfl rfl rfl rfl rfl rfl rfl rfl rfl rfl rfl rfl rfl rfl
    rfl rfl rfl rfl rfl rfl rfl rfl

/-- C4: in v3, a round flattens successfully exactly when every
non-optional field is present (in the round record and the session
record); when it does, the `player_move` column of the player-2 row is
the recorded `player2_move` value, or the sentinel `"NA"` when that key is
absent, and likewise its `bot_round_memory` column for
`player2_memory_struct`. -/
theorem claim4_v3_optional_defaults (parsed r : Obj) :
    ((flattenRound_v3 parsed r).isOk = true ↔
      (["game_id", "round_index", "player1_id", "round_begin_ts",
        "player1_move", "player1_rt", "player1_outcome",
        "player1_outcome_viewtime", "player1_points", "player1_total",
        "player2_rt", "player2_outcome", "player2_outcome_viewtime",
        "player2_points", "player2_total"].all
          (fun k => (lookup r k).isSome) &&
       ["version", "sona", "experiment_id", "credit_token", "survey_code",
        "player2_bot_strategy", "player2_botid"].all
          (fun k => (lookup parsed k).isSome)) = true) ∧
    (∀ p1 p2, flattenRound_v3 parsed r = Except.ok (p1, p2) →
      p2.get? 12 = some (match lookup r "player2_move" with
        | some v => v
        | none => JVal.jstr "NA") ∧
      p2.get? 10 = some (match lookup r "player2_memory_struct" with
        | some v => v
        | none => JVal.jstr "NA")) := by
  constructor
  · constructor
    · intro h
      cases hf : flattenRound_v3 parsed r with
      | error e => rw [hf] at h; simp [Except.isOk, Except.toBool] at h
      | ok pq =>
        obtain ⟨p1, p2⟩ := pq
        obtain ⟨gid, ver, sona, eid, ct, sc, ridx, p1id, bstrat, bts, p1m,
          p1rt, p1o, p1ov, p1p, p1t, botid, p2rt, p2o, p2ov, p2p, p2t,
          hgid, hver, hsona, heid, hct, hsc, hridx, hp1id, hbstrat, hbts,
          hp1m, hp1rt, hp1o, hp1ov, hp1p, hp1t, hbotid, hp2rt, hp2o, hp2ov,
          hp2p, hp2t, hp1, hp2⟩ := flattenRound_v3_elim hf
        simp [hgid, hver, hsona, heid, hct, hsc, hridx, hp1id, hbstrat,
          hbts, hp1m, hp1rt, hp1o, hp1ov, hp1p, hp1t, hbotid, hp2rt, hp2o,
          hp2ov, hp2p, hp2t]
    · intro h
      simp only [Bool.and_eq_true, List.all_eq_true, List.mem_cons,
        List.not_mem_nil, or_false, forall_eq_or_imp, forall_eq] at h
      obtain ⟨⟨hgid, hridx, hp1id, hbts, hp1m, hp1rt, hp1o, hp1ov, hp1p,
        hp1t, hp2rt, hp2o, hp2ov, hp2p, hp2t⟩,
        hver, hsona, heid, hct, hsc, hbstrat, hbotid⟩ := h
      obtain ⟨gid, hgid⟩ := Option.isSome_iff_exists.mp hgid
      obtain ⟨ridx, hridx⟩ := Option.isSome_iff_exists.mp hridx
      obtain ⟨p1id, hp1id⟩ := Option.isSome_iff_exists.mp hp1id
      obtain ⟨bts, hbts⟩ := Option.isSome_iff_exists.mp hbts
      obtain ⟨p1m, hp1m⟩ := Option.isSome_iff_exists.mp hp1m
      obtain ⟨p1rt, hp1rt⟩ := Option.isSome_iff_exists.mp hp1rt
      obtain ⟨p1o, hp1o⟩ := Option.isSome_iff_exists.mp hp1o
      obtain ⟨p1ov, hp1ov⟩ := Option.isSome_iff_exists.mp hp1ov
      obtain ⟨p1p, hp1p⟩ := Option.isSome_iff_exists.mp hp1p
      obtain ⟨p1t, hp1t⟩ := Option.isSome_iff_exists.mp hp1t
      obtain ⟨p2rt, hp2rt⟩ := Option.isSome_iff_exists.mp hp2rt
      obtain ⟨p2o, hp2o⟩ := Option.isSome_iff_exists.mp hp2o
      obtain ⟨p2ov, hp2ov⟩ := Option.isSome_iff_exists.mp hp2ov
      obtain ⟨p2p, hp2p⟩ := Option.isSome_iff_exists.mp hp2p
      obtain ⟨p2t, hp2t⟩ := Option.isSome_iff_exists.mp hp2t
      obtain ⟨ver, hver⟩ := Option.isSome_iff_exists.mp hver
      obtain ⟨sona, hsona⟩ := Option.isSome_iff_exists.mp hsona
      obtain ⟨eid, heid⟩ := Option.isSome_iff_exists.mp heid
      obtain ⟨ct, hct⟩ := Option.isSome_iff_exists.mp hct
      obtain ⟨sc, hsc⟩ := Option.isSome_iff_exists.mp hsc
      obtain ⟨bstrat, hbstrat⟩ := Option.isSome_iff_exists.mp hbstrat
      obtain ⟨botid, hbotid⟩ := Option.isSome_iff_exists.mp hbotid
      rw [flattenRound_v3_intro parsed r gid ver sona eid ct sc ridx p1id
        bstrat bts p1m p1rt p1o p1ov p1p p1t botid p2rt p2o p2ov p2p p2t
        hgid hver hsona heid hct hsc hridx hp1id hbstrat hbts hp1m hp1rt
        hp1o hp1ov hp1p hp1t hbotid hp2rt hp2o hp2ov hp2p hp2t]
      rfl
  · rintro p1 p2 hf
    obtain ⟨gid, ver, sona, eid, ct, sc, ridx, p1id, bstrat, bts, p1m,
      p1rt, p1o, p1ov, p1p, p1t, botid, p2rt, p2o, p2ov, p2p, p2t,
      hgid, hver, hsona, heid, hct, hsc, hridx, hp1id, hbstrat, hbts,
      hp1m, hp1rt, hp1o, hp1ov, hp1p, hp1t, hbotid, hp2rt, hp2o, hp2ov,
      hp2p, hp2t, hp1, hp2⟩ := flattenRound_v3_elim hf
    rw [hp2]
    exact ⟨by simp [List.get?, player2_move_v3],
      by simp [List.get?, memory_struct_v3]⟩

/-- Witness for C4: the fixture round lacking both optional keys
flattens successfully and both optional columns read `"NA"`. -/
theorem claim4_v3_optional_defaults_witness :
    (flattenRound_v3 sessionV3 roundV3noOpt).isOk = true ∧
    p2RowNoOpt.get? 12 = some (JVal.jstr "NA") ∧
    p2RowNoOpt.get? 10 = some (JVal.jstr "NA") := by
  refine ⟨(claim4_v3_optional_defaults sessionV3 roundV3noOpt).1.mpr rfl,
    ?_, ?_⟩
  · exact ((claim4_v3_optional_defaults sessionV3 roundV3noOpt).2
      p1RowNoOpt p2RowNoOpt rfl).1
  · exact ((claim4_v3_optional_defaults sessionV3 roundV3noOpt).2
      p1RowNoOpt p2RowNoOpt rfl).2

/-- C9: in v3, the `bot_round_memory` column of the player-1 row is always the
literal `"NA"`, whether or not the round carries a
`player2_memory_struct` value. -/
theorem claim9_p1_memory_always_na (parsed r : Obj) (p1 p2 : List JVal)
    (h : flattenRound_v3 parsed r = Except.ok (p1, p2)) :
    p1.get? 10 = some (JVal.jstr "NA") := by
  obtain ⟨gid, ver, sona, eid, ct, sc, ridx, p1id, bstrat, bts, p1m,
    p1rt, p1o, p1ov, p1p, p1t, botid, p2rt, p2o, p2ov, p2p, p2t,
    hgid, hver, hsona, heid, hct, hsc, hridx, hp1id, hbstrat, hbts,
    hp1m, hp1rt, hp1o, hp1ov, hp1p, hp1t, hbotid, hp2rt, hp2o, hp2ov,
    hp2p, hp2t, hp1, hp2⟩ := flattenRound_v3_elim h
  rw [hp1]
  rfl

/-- Witness for C9: even with `player2_memory_struct` present, the
memory column of the player-1 row is `"NA"`. -/
theorem claim9_p1_memory_always_na_witness :
    lookup roundV3full "player2_memory_struct"
      = some (JVal.jobj [("rock", JVal.jnum 2)]) ∧
    flattenRound_v3 sessionV3 roundV3full
      = Except.ok (p1RowNoOpt, p2RowFull) ∧
    p1RowNoOpt.get? 10 = some (JVal.jstr "NA") :=
  ⟨rfl, rfl,
   claim9_p1_memory_always_na sessionV3 roundV3full p1RowNoOpt p2RowFull rfl⟩

/-- C10: in v3, the `player_id` column of the player-2 row is unconditionally
the session-level `player2_botid` value, and a session record lacking
that key makes every round of the file fail. -/
theorem claim10_p2_id_is_botid (parsed r : Obj) :
    (∀ p1 p2, flattenRound_v3 parsed r = Except.ok (p1, p2) →
      ∃ b, lookup parsed "player2_botid" = some b ∧ p2.get? 7 = some b) ∧
    (lookup parsed "player2_botid" = none →
      (flattenRound_v3 parsed r).isOk = false) := by
  constructor
  · rintro p1 p2 hf
    obtain ⟨gid, ver, sona, eid, ct, sc, ridx, p1id, bstrat, bts, p1m,
      p1rt, p1o, p1ov, p1p, p1t, botid, p2rt, p2o, p2ov, p2p, p2t,
      hgid, hver, hsona, heid, hct, hsc, hridx, hp1id, hbstrat, hbts,
      hp1m, hp1rt, hp1o, hp1ov, hp1p, hp1t, hbotid, hp2rt, hp2o, hp2ov,
      hp2p, hp2t, hp1, hp2⟩ := flattenRound_v3_elim hf
    exact ⟨botid, hbotid, by rw [hp2]; rfl⟩
  · intro hnone
    cases hf : flattenRound_v3 parsed r with
    | error e => rfl
    | ok pq =>
      obtain ⟨p1, p2⟩ := pq
      obtain ⟨gid, ver, sona, eid, ct, sc, ridx, p1id, bstrat, bts, p1m,
        p1rt, p1o, p1ov, p1p, p1t, botid, p2rt, p2o, p2ov, p2p, p2t,
        hgid, hver, hsona, heid, hct, hsc, hridx, hp1id, hbstrat, hbts,
        hp1m, hp1rt, hp1o, hp1ov, hp1p, hp1t, hbotid, hp2rt, hp2o, hp2ov,
        hp2p, hp2t, hp1, hp2⟩ := flattenRound_v3_elim hf
      rw [hnone] at hbotid
      exact absurd hbotid (by simp)

/-- Witness for C10: the bot id of the fixture session lands in the id
column of the player-2 row, and the same session without `player2_botid` makes the
round fail. -/
theorem claim10_p2_id_is_botid_witness :
    (lookup sessionV3 "player2_botid" = some (JVal.jstr "bot_17") ∧
      p2RowNoOpt.get? 7 = some (JVal.jstr "bot_17")) ∧
    (flattenRound_v3 sessionNoBot roundV3noOpt).isOk = false := by
  constructor
  · obtain ⟨b, hb, hg⟩ := (claim10_p2_id_is_botid sessionV3 roundV3noOpt).1
      p1RowNoOpt p2RowNoOpt rfl
    have hbv : some (JVal.jstr "bot_17") = some b := hb
    obtain rfl := (Option.some.inj hbv).symm
    exact ⟨hb, hg⟩
  · exact (claim10_p2_id_is_botid sessionNoBot roundV3noOpt).2 rfl

/-- Counterexample to C6 as stated: a run over one file whose document
lacks the `rounds` key starts that file (it aborts with the `rounds`
lookup error raised from inside it) yet writes no header, because the
`rounds` lookup precedes the header guard.  So "header present iff at
least one file had been started" fails in the only-if-to-if direction. -/
theorem claim6_counterexample :
    countHeaders (run_v1 [([] : Obj)]).1 = 0 ∧
    (run_v1 [([] : Obj)]).2 = some (PyErr.keyError "rounds") ∧
    countHeaders (run_v3 [([] : Obj)]).1 = 0 ∧
    (run_v3 [([] : Obj)]).2 = some (PyErr.keyError "rounds") :=
  ⟨rfl, rfl, rfl, rfl⟩

/-- C6 (amended): a missing required key raises a lookup error that
aborts the whole run with no per-file or per-round recovery — all later
rounds and files are untouched, so the output holds exactly the rows
written before the failure; and the header is present iff the first
file of the run had a successful `rounds` lookup (not merely iff a file was started). -/
theorem claim6_abort_and_header (parsed : Obj) :
    (∀ (rs more : List Obj), (processRounds_v1 rs).2.isSome = true →
      processRounds_v1 (rs ++ more) = processRounds_v1 rs) ∧
    (∀ (rs more : List Obj), (processRounds_v3 parsed rs).2.isSome = true →
      processRounds_v3 parsed (rs ++ more) = processRounds_v3 parsed rs) ∧
    (∀ (fs rest : List Obj), (run_v1 fs).2.isSome = true →
      run_v1 (fs ++ rest) = run_v1 fs) ∧
    (∀ (fs rest : List Obj), (run_v3 fs).2.isSome = true →
      run_v3 (fs ++ rest) = run_v3 fs) ∧
    (∀ fs : List Obj, countHeaders (run_v1 fs).1 =
      (match fs with
       | [] => 0
       | f :: _ => if (lookup f "rounds").isSome then 1 else 0)) ∧
    (∀ fs : List Obj, countHeaders (run_v3 fs).1 =
      (match fs with
       | [] => 0
       | f :: _ => if (lookup f "rounds").isSome then 1 else 0)) :=
  ⟨processRounds_v1_abort, processRounds_v3_abort parsed,
   fun fs rest h => runAux_v1_abort fs 0 rest h,
   fun fs rest h => runAux_v3_abort fs 0 rest h,
   run_v1_headers, run_v3_headers⟩

/-- Witness for the amended C6: a failing first file freezes the output
whatever comes later, and a good single file yields exactly one header. -/
theorem claim6_abort_and_header_witness :
    processRounds_v1 ([([] : Obj)] ++ [g1round])
      = processRounds_v1 [([] : Obj)] ∧
    run_v1 ([([] : Obj)] ++ [g1session]) = run_v1 [([] : Obj)] ∧
    run_v3 ([([] : Obj)] ++ [sessionV3]) = run_v3 [([] : Obj)] ∧
    countHeaders (run_v1 [g1session]).1 = 1 :=
  ⟨(claim6_abort_and_header sessionV3).1 [([] : Obj)] [g1round] rfl,
   (claim6_abort_and_header sessionV3).2.2.1 [([] : Obj)] [g1session] rfl,
   (claim6_abort_and_header sessionV3).2.2.2.1 [([] : Obj)] [sessionV3] rfl,
   (claim6_abort_and_header sessionV3).2.2.2.2.1 [g1session]⟩

end RPS
